import Mathlib

/-!
Verification of the photo provenance analyzer (`photo_data_puller.py`).

The byte buffer is modelled as `List Byte` with `Byte := Fin 256`.  Python's
`data.decode("latin-1")` is the identity on byte values (each byte becomes the
character with that code point), so all textual substring detectors are run
directly over the byte list: a Python string literal is translated to its byte
sequence by `strBytes` (every character in the catalogs has a code point below
256, including the latin-1 letter in "Voigtländer").
-/

namespace PhotoPuller

abbrev Byte := Fin 256

/-- Byte at index `i`; out-of-range reads yield 0.  Every use below is guarded
by the same bounds checks the Python code performs (a `struct.unpack` on a
short slice raises and is caught), so the default value is never observable. -/
def byteAt (data : List Byte) (i : Nat) : Nat := (data.getD i 0).val

/-- Big-endian 16-bit read, `struct.unpack(">H", data[i:i+2])`. -/
def readBE16 (data : List Byte) (i : Nat) : Nat :=
  256 * byteAt data i + byteAt data (i + 1)

/-- Little-endian 16-bit read, `struct.unpack("<H", data[i:i+2])`. -/
def readLE16 (data : List Byte) (i : Nat) : Nat :=
  byteAt data i + 256 * byteAt data (i + 1)

/-- Big-endian 32-bit read, `struct.unpack(">I", data[i:i+4])`. -/
def readBE32 (data : List Byte) (i : Nat) : Nat :=
  256 * (256 * (256 * byteAt data i + byteAt data (i + 1)) + byteAt data (i + 2))
    + byteAt data (i + 3)

/-- Little-endian 32-bit read, `struct.unpack("<I", data[i:i+4])`. -/
def readLE32 (data : List Byte) (i : Nat) : Nat :=
  byteAt data i + 256 * (byteAt data (i + 1) + 256 * (byteAt data (i + 2)
    + 256 * byteAt data (i + 3)))

/-- Little-endian 24-bit read, `int.from_bytes(data[i:i+3], "little")`. -/
def readLE24 (data : List Byte) (i : Nat) : Nat :=
  byteAt data i + 256 * (byteAt data (i + 1) + 256 * byteAt data (i + 2))

/-- Endian-dispatched 16-bit read (`struct.unpack(f"{endian}H", ...)`). -/
def readU16 (little : Bool) (data : List Byte) (i : Nat) : Nat :=
  if little then readLE16 data i else readBE16 data i

/-- Endian-dispatched 32-bit read (`struct.unpack(f"{endian}I", ...)`). -/
def readU32 (little : Bool) (data : List Byte) (i : Nat) : Nat :=
  if little then readLE32 data i else readBE32 data i

/-- The byte sequence of a Python string under latin-1 encoding. -/
def strBytes (s : String) : List Byte := s.data.map (fun c => (c.toNat : Fin 256))

/-- Contiguous-subsequence containment: Python's `needle in haystack` for
`bytes`/`str`, true iff `pat` occurs at some offset of `data`. -/
def containsSeq (pat data : List Byte) : Bool :=
  (List.range (data.length + 1)).any (fun i => (data.drop i).take pat.length == pat)

/-- Python `candidate in ascii_data`: substring containment over the decoded
text, i.e. byte-sequence containment. -/
def substrIn (pat : String) (data : List Byte) : Bool :=
  containsSeq (strBytes pat) data

/-- Python `data.startswith(pat)`: a buffer shorter than the pattern yields a
short `take`, which is unequal to the pattern, matching Python's `False`. -/
def startswith (data : List Byte) (pat : List Byte) : Bool :=
  data.take pat.length == pat

/-- Python truthiness of an `Optional[int]`: `None` and `0` are falsy. -/
def truthyNat (o : Option Nat) : Bool := o.getD 0 != 0

/-- Python truthiness of an `Optional[str]`: `None` and `""` are falsy. -/
def truthyStr (o : Option String) : Bool := o.getD "" != ""

/-- Python `x in CAMERA_MAKES` for `x : Optional[str]`: `None` is not a member
of a set of strings. -/
def optMem (o : Option String) (l : List String) : Bool :=
  match o with
  | some s => l.contains s
  | none => false

/-- Python `str.strip()` on the strings built here (whitespace at both ends). -/
def pyStrip (s : String) : String :=
  String.mk (((s.data.dropWhile Char.isWhitespace).reverse.dropWhile
    Char.isWhitespace).reverse)

/-! ## Catalogs (`KNOWN_MAKES`, `CAMERA_MAKES`, `EDIT_SOFTWARE_TAGS`) -/

def KNOWN_MAKES : List String :=
  ["Apple", "Samsung", "Google", "Huawei", "Xiaomi", "Oppo", "Vivo", "OnePlus",
   "Realme", "Motorola", "Sony", "LG", "Nokia", "Asus", "Honor", "ZTE", "Meizu",
   "Lenovo", "Alcatel", "TCL", "HTC", "Micromax", "Infinix", "Tecno",
   "Canon", "Nikon", "Fujifilm", "Olympus", "Panasonic", "Leica", "Pentax",
   "Sigma", "Hasselblad", "Ricoh", "Minolta", "Konica", "Casio", "Kodak",
   "Phase One", "Mamiya", "Yashica", "Contax",
   "Zeiss", "Carl Zeiss", "Tamron", "Tokina", "Samyang", "Voigtlander",
   "Voigtländer", "Rokinon", "Laowa", "Yongnuo", "Leitz",
   "DJI", "GoPro", "Insta360", "Blackmagic", "RED", "ARRI"]

/-- The source stores this as a Python `set`; only membership is ever used, so
a list with `contains` is an exact model. -/
def CAMERA_MAKES : List String :=
  ["Canon", "Nikon", "Fujifilm", "Olympus", "Panasonic", "Leica", "Pentax",
   "Sigma", "Hasselblad", "Ricoh", "Minolta", "Konica", "Casio", "Kodak",
   "Phase One", "Mamiya", "Yashica", "Contax"]

def EDIT_SOFTWARE_TAGS : List String :=
  ["Adobe", "Photoshop", "Lightroom", "GIMP", "Affinity", "Paint.NET",
   "Corel", "AfterShot", "DxO", "Capture One", "Pixelmator", "Acorn",
   "Krita", "PhotoDirector"]

/-! ## Format sniffer (`_sniff_file_type`) -/

/-- `_sniff_file_type`: magic-prefix cascade.  Note the WEBP branch is
`data.startswith(b"RIFF") and b"WEBP" in data[8:16]`: a substring search of
"WEBP" inside the 8-byte window at offsets 8..15, not an exact read of the
four bytes at offset 8. -/
def _sniff_file_type (data : List Byte) : String :=
  if startswith data [0xFF, 0xD8] then "JPEG"
  else if startswith data [0x89, 0x50, 0x4E, 0x47] then "PNG"
  else if startswith data [0x49, 0x49, 0x2A, 0x00]
      || startswith data [0x4D, 0x4D, 0x00, 0x2A] then "TIFF"
  else if startswith data (strBytes "RIFF")
      && containsSeq (strBytes "WEBP") ((data.drop 8).take 8) then "WEBP"
  else if startswith data (strBytes "BM") then "BMP"
  else "Unknown"

/-! ## Dimension extractors -/

/-- `_png_dimensions`: `struct.unpack(">II", data[16:24])`; the unpack raises
on a short slice and the handler returns `(None, None)`. -/
def _png_dimensions (data : List Byte) : Option Nat × Option Nat :=
  if 24 ≤ data.length then (some (readBE32 data 16), some (readBE32 data 20))
  else (none, none)

/-- `_bmp_dimensions`: two `"<I"` unpacks at offsets 18 and 22; if either
slice is short the exception handler returns `(None, None)` (the first value
is discarded when the second unpack raises). -/
def _bmp_dimensions (data : List Byte) : Option Nat × Option Nat :=
  if 26 ≤ data.length then (some (readLE32 data 18), some (readLE32 data 22))
  else (none, none)

/-- `_webp_dimensions`.  Bit operations on byte-ranged operands are written
arithmetically; each rewriting is exact:
* `x & 0x3FFF = x % 16384` and `x & 0x3F = x % 64` and `x & 0xF = x % 16`
  hold for every natural `x` (masks of the form `2^k - 1`);
* `(b1 & 0xC0) >> 6 = b1 / 64` for `b1 < 256` (always true of a byte);
* `((b1 & 0x3F) << 8) | b0 = (b1 % 64) * 256 + b0` since `b0 < 256` occupies
  the low 8 bits only;
* `((b3 & 0xF) << 10) | (b2 << 2) | ((b1 & 0xC0) >> 6)
   = (b3 % 16) * 1024 + b2 * 4 + b1 / 64` since `b2 * 4 + b1 / 64 < 1024`
  and `b1 / 64 < 4` make the three summands occupy disjoint bit ranges.
No exception path is reachable: every slice read is guarded by the length
check in the same branch condition. -/
def _webp_dimensions (data : List Byte) : Option Nat × Option Nat :=
  if (data.drop 12).take 4 = strBytes "VP8 " ∧ 30 ≤ data.length then
    (some (readLE16 data 26 % 16384), some (readLE16 data 28 % 16384))
  else if (data.drop 12).take 4 = strBytes "VP8L" ∧ 25 ≤ data.length then
    (some (1 + ((byteAt data 22 % 64) * 256 + byteAt data 21)),
     some (1 + ((byteAt data 24 % 16) * 1024 + byteAt data 23 * 4
       + byteAt data 22 / 64)))
  else if (data.drop 12).take 4 = strBytes "VP8X" ∧ 30 ≤ data.length then
    (some (1 + readLE24 data 24), some (1 + readLE24 data 27))
  else (none, none)

/-- Body of the `for i in range(num_entries)` loop of `_tiff_dimensions`.
The source guard `if "width" in locals() and "height" in locals():` is always
true — both names are bound unconditionally by `width = height = None` at
function entry — so the loop returns `(width, height)` at the end of its
first in-bounds iteration and never reaches a second one.  When the bounds
check `start + 12 > len(data)` fires, the `break` falls through to the final
`return None, None`, discarding any value already found. -/
def tiff_entry_step (little : Bool) (data : List Byte) (offset : Nat)
    (num_entries : Nat) (width height : Option Nat) : Option Nat × Option Nat :=
  if 0 < num_entries then
    let start := offset + 2
    if start + 12 > data.length then (none, none)
    else
      let tag := readU16 little data start
      let width := if tag = 256 then some (readU32 little data (start + 8)) else width
      let height := if tag = 257 then some (readU32 little data (start + 8)) else height
      (width, height)
  else (none, none)

/-- `_tiff_dimensions`: endianness marker, IFD offset, entry scan.  The
unpack of `data[4:8]` raises on buffers shorter than 8 bytes and the handler
returns `(None, None)`. -/
def _tiff_dimensions (data : List Byte) : Option Nat × Option Nat :=
  if data.length < 8 then (none, none)
  else
    let little := data.take 2 == strBytes "II"
    let offset := readU32 little data 4
    if offset + 2 > data.length then (none, none)
    else
      let num_entries := readU16 little data offset
      tiff_entry_step little data offset num_entries none none

/-! ## JPEG segment scanner (`jpeg_quant_tables`, `jpeg_resolution`) -/

/-- One iteration of the `jpeg_quant_tables` loop body, run under the loop
guard `i < len(data) - 1`.  Returns the next cursor and whether a table was
counted.  On an `FF DB` marker, `struct.unpack(">H", data[i+2:i+4])` succeeds
exactly when `i + 4 ≤ len(data)`; then `tables += 1; i += length` — note the
cursor does not move when the declared length is 0.  When the unpack raises
(short slice) the handler advances by exactly one byte without counting. -/
def jqt_next (data : List Byte) (i : Nat) : Nat × Bool :=
  if byteAt data i = 0xFF ∧ byteAt data (i + 1) = 0xDB then
    if i + 4 ≤ data.length then (i + readBE16 data (i + 2), true)
    else (i + 1, false)
  else (i + 1, false)

/-- Fuel-indexed unfolding of the `while i < len(data) - 1` loop of
`jpeg_quant_tables`.  (Nat subtraction agrees with Python here: for
`len(data) = 0` Python compares `i < -1`, false, and `0 - 1 = 0` in Nat
makes `i < 0` false as well.) -/
def jqt_loop : Nat → List Byte → Nat → Nat → Nat
  | 0, _, _, tables => tables
  | fuel + 1, data, i, tables =>
    if i < data.length - 1 then
      let step := jqt_next data i
      jqt_loop fuel data step.1 (if step.2 then tables + 1 else tables)
    else tables

/-- `jpeg_quant_tables`.  The fuel `len(data) + 1` is enough for every
terminating run of the source loop: on such runs each iteration strictly
increases the cursor, which starts at 0 and exits once it reaches
`len(data) - 1`, so at most `len(data)` iterations occur.  On buffers where
the source loop never terminates (an `FF DB` whose declared length is 0, see
the C1 theorem below) the source function diverges while this total model
returns after exhausting its fuel; no claim below depends on the value
returned there. -/
def jpeg_quant_tables (data : List Byte) : Nat :=
  jqt_loop (data.length + 1) data 0 0

/-- `jpeg_resolution`: first `FF C0` / `FF C2` marker with `i < len(data)-9`;
height is the big-endian 16-bit value at `i+5`, width at `i+7`, returned as
`(width, height)`.  Because `i + 9 < len(data)` holds at a hit, the two
unpacks always succeed and the exception path is dead.  The leftmost-first
`while` loop is expressed as `find?` over the cursor range. -/
def jpeg_resolution (data : List Byte) : Option Nat × Option Nat :=
  match (List.range (data.length - 9)).find?
      (fun i => byteAt data i == 0xFF
        && (byteAt data (i + 1) == 0xC0 || byteAt data (i + 1) == 0xC2)) with
  | some i => (some (readBE16 data (i + 7)), some (readBE16 data (i + 5)))
  | none => (none, none)

/-! ## Size/resolution plausibility check (`size_resolution_check`) -/

/-- `size_resolution_check`, a pure function of `len(data)` and the optional
dimensions (the embedding takes the length directly).  The float comparisons
are exact integer comparisons: `n / (1024*1024) < 0.1  ⟺  10 * n < 1048576`
and `n / (1024*1024) > 20  ⟺  n > 20971520` (division of an integer by
`2^20` and these literals are exact in IEEE-754 doubles over the relevant
range, and for huge `n` both sides agree trivially).  `if width and height:`
uses Python truthiness, so a `None` or `0` axis skips the resolution rules. -/
def size_resolution_check (n : Nat) (width height : Option Nat) :
    Bool × Option String :=
  if 10 * n < 1048576 then
    (false, some "File too small to be a natural camera photo")
  else if n > 20971520 then
    (false, some "Unusually large for a typical JPEG capture")
  else if truthyNat width && truthyNat height then
    if width.getD 0 < 500 ∨ height.getD 0 < 500 then
      (false, some "Resolution unusually low")
    else if width.getD 0 > 12000 ∨ height.getD 0 > 12000 then
      (false, some "Resolution unusually high (possible synthetic or scan)")
    else (true, none)
  else (true, none)

/-! ## Textual metadata heuristics -/

/-- `has_exif_from_text`. -/
def has_exif_from_text (data : List Byte) : Bool :=
  substrIn "Exif" data || substrIn "Make" data || substrIn "Model" data

/-- `_find_in_ascii`: first catalog entry occurring as a substring. -/
def _find_in_ascii (data : List Byte) (search : List String) : Option String :=
  search.find? (fun candidate => substrIn candidate data)

/-- `extract_make_model` over the decoded text (= the buffer bytes).  The
`try/except` is dead: nothing in the body can raise. -/
def extract_make_model (data : List Byte) : Option String × Option String :=
  let make := _find_in_ascii data KNOWN_MAKES
  let model :=
    if substrIn "iPhone" data then some "iPhone"
    else if substrIn "SM-" data then some "Samsung Galaxy"
    else if substrIn "Pixel" data then some "Pixel"
    else if substrIn "Mate" data || substrIn "P20" data || substrIn "P30" data then
      some "Huawei Phone"
    else if substrIn "MI " data || substrIn "Redmi" data then some "Xiaomi Phone"
    else none
  (make, model)

/-- `detect_editing_tags`: first editing-tool catalog entry found. -/
def detect_editing_tags (data : List Byte) : Option String :=
  EDIT_SOFTWARE_TAGS.find? (fun tag => substrIn tag data)

/-- Python `round(x, 2)` as exact rational rounding: round half to even at
two decimal places.  The source computes this on IEEE-754 doubles; this ℚ
model is the exact-arithmetic reading and is used only where claims do not
hinge on double rounding at decimal boundaries (see the C5 discussion: the
double computation is known to deviate from exact arithmetic at tolerance
boundaries, which is why C5 itself is not settled against this model). -/
def pyRound2 (q : ℚ) : ℚ :=
  let x := q * 100
  let f : ℤ := Int.floor x
  let r := x - (f : ℚ)
  let n : ℤ :=
    if r < 1 / 2 then f
    else if 1 / 2 < r then f + 1
    else if f % 2 = 0 then f else f + 1
  (n : ℚ) / 100

/-- `detect_screenshot`.  `if not width or not height: return False` uses
Python truthiness (`None` or `0`); after it, `height > 0` always holds.
`make`/`model` are catalog labels or `None`, so their truthiness is
`isSome`. -/
def detect_screenshot (exif_present : Bool) (make model : Option String)
    (width height : Option Nat) : Bool :=
  if ¬truthyNat width ∨ ¬truthyNat height then false
  else
    let aspect : ℚ :=
      if 0 < height.getD 0 then
        pyRound2 ((width.getD 0 : ℚ) / (height.getD 0 : ℚ))
      else 0
    let common_aspects : List ℚ := [133 / 100, 3 / 2, 8 / 5, 177 / 100, 2]
    if ¬exif_present ∧ make = none ∧ model = none then
      common_aspects.any (fun ca => |aspect - ca| < 5 / 100)
    else false

/-! ## Extra metadata (`extract_extra_metadata`) -/

/-- ASCII decimal digit. -/
def isDig (b : Nat) : Bool := 48 ≤ b && b ≤ 57

/-- The 19-character timestamp pattern `20\d{2}:\d{2}:\d{2} \d{2}:\d{2}:\d{2}`
anchored at offset `i`.  Out-of-range reads yield byte 0, which fails every
character test, so no separate length check is needed. -/
def tsPatternAt (data : List Byte) (i : Nat) : Bool :=
  byteAt data i == 50 && byteAt data (i + 1) == 48
    && isDig (byteAt data (i + 2)) && isDig (byteAt data (i + 3))
    && byteAt data (i + 4) == 58
    && isDig (byteAt data (i + 5)) && isDig (byteAt data (i + 6))
    && byteAt data (i + 7) == 58
    && isDig (byteAt data (i + 8)) && isDig (byteAt data (i + 9))
    && byteAt data (i + 10) == 32
    && isDig (byteAt data (i + 11)) && isDig (byteAt data (i + 12))
    && byteAt data (i + 13) == 58
    && isDig (byteAt data (i + 14)) && isDig (byteAt data (i + 15))
    && byteAt data (i + 16) == 58
    && isDig (byteAt data (i + 17)) && isDig (byteAt data (i + 18))

/-- `re.search` for the fixed-length timestamp pattern: leftmost occurrence,
returned as the 19-byte window of decoded text. -/
def findTimestamp (data : List Byte) : Option (List Byte) :=
  ((List.range data.length).find? (fun i => tsPatternAt data i)).map
    (fun i => (data.drop i).take 19)

/-- `ascii_data.find("Orientation")`: lowest index of the substring. -/
def findSubIdx (pat data : List Byte) : Option Nat :=
  (List.range (data.length + 1)).find? (fun i => (data.drop i).take pat.length == pat)

/-- Orientation snippet: the 30 characters of decoded text from the first
occurrence of "Orientation" (present by the guard). -/
def findOrientation (data : List Byte) : Option (List Byte) :=
  if substrIn "Orientation" data then
    (findSubIdx (strBytes "Orientation") data).map
      (fun idx => (data.drop idx).take 30)
  else none

/-- Length of the maximal digit run starting at offset `i`. -/
def digitRun (data : List Byte) (i : Nat) : Nat :=
  ((data.drop i).takeWhile (fun b => isDig b.val)).length

/-- Attempted match of `[-+]?\d{1,3}\.\d+` anchored at offset `p`; returns
the exclusive end offset on success.  Python regex semantics for this
pattern: the optional sign is consumed when present (retrying without it
cannot succeed, since `\d` then fails on the sign character); the greedy
`\d{1,3}` can only succeed by taking the entire digit run `d` when
`1 ≤ d ≤ 3` — for any shorter prefix the following character is a digit,
not `.`, and for `d ≥ 4` the character after any 1–3 digits is a digit —
then `\.` and a maximal nonempty `\d+` follow. -/
def gpsMatchEnd (data : List Byte) (p : Nat) : Option Nat :=
  let sign := byteAt data p = 43 ∨ byteAt data p = 45
  let q := if sign then p + 1 else p
  let d := digitRun data q
  if 1 ≤ d ∧ d ≤ 3 ∧ byteAt data (q + d) = 46 ∧ isDig (byteAt data (q + d + 1)) then
    some (q + d + 1 + digitRun data (q + d + 1))
  else none

/-- `re.findall` scan for the GPS pattern: left to right, non-overlapping,
resuming after each match.  Fuel-indexed; every step advances the position
(by at least 3 on a match since `d ≥ 1` and the fraction is nonempty), so
fuel `len(data) + 1` from position 0 covers the whole scan. -/
def gpsScan : Nat → List Byte → Nat → List (List Byte)
  | 0, _, _ => []
  | fuel + 1, data, p =>
    if p < data.length then
      match gpsMatchEnd data p with
      | some e => ((data.drop p).take (e - p)) :: gpsScan fuel data e
      | none => gpsScan fuel data (p + 1)
    else []

/-- All matches of `[-+]?\d{1,3}\.\d+` in the decoded text, in scan order. -/
def gpsFindall (data : List Byte) : List (List Byte) :=
  gpsScan (data.length + 1) data 0

/-- Numeric value of digit bytes, most significant first. -/
def parseDigits (l : List Byte) : Nat :=
  l.foldl (fun acc b => acc * 10 + (b.val - 48)) 0

/-- Sign of a matched token: -1 for a leading '-', else 1. -/
def tokenSign (tok : List Byte) : ℤ := if byteAt tok 0 = 45 then -1 else 1

/-- Integer and fractional digit groups of a matched token. -/
def tokenParts (tok : List Byte) : List Byte × List Byte :=
  let rest := if byteAt tok 0 = 45 ∨ byteAt tok 0 = 43 then tok.drop 1 else tok
  let intPart := rest.takeWhile (fun b => isDig b.val)
  (intPart, rest.drop (intPart.length + 1))

/-- Numerator of the token's decimal value over `tokenDen`. -/
def tokenNum (tok : List Byte) : ℤ :=
  tokenSign tok * (parseDigits (tokenParts tok).1 * 10 ^ (tokenParts tok).2.length
    + parseDigits (tokenParts tok).2)

/-- Denominator of the token's decimal value. -/
def tokenDen (tok : List Byte) : Nat := 10 ^ (tokenParts tok).2.length

/-- Exact rational value of a matched decimal token.  The program's
`float(match)` is this value correctly rounded to the nearest IEEE-754
double; the range test the program applies to that double is embedded
exactly by `tokenInRange` below. -/
def tokenVal (tok : List Byte) : ℚ := (tokenNum tok : ℚ) / (tokenDen tok : ℚ)

/-- The program's range test `-180 <= float(match) <= 180`, embedded
exactly.  `float` rounds the literal's exact value `x = z / 10^f` (with
`|x| < 1000` by the 1–3-integer-digit pattern, hence finite) to the nearest
double, ties to even (CPython's conversion is correctly rounded).  Correct
rounding `rn` is monotone; `180.0` is a double whose 52-bit mantissa ends
in 0 (`180 = 1.01101₂ * 2^7`), its successor is `180 + 2^-45`, and their
midpoint `180 + 2^-46` rounds down to `180.0` by ties-to-even.  So for
`x ≤ 180 + 2^-46` monotonicity gives `rn(x) ≤ 180.0`, while any
`x > 180 + 2^-46` is nearer to (or beyond) `180 + 2^-45` and gives
`rn(x) > 180.0`: `float(s) <= 180.0` iff `x ≤ 180 + 2^-46`, and
symmetrically (`rn(-x) = -rn(x)`) `-180.0 <= float(s)` iff
`-(180 + 2^-46) ≤ x`.  Clearing the positive denominators `10^f` and
`2^46` yields the exact integer comparison below. -/
def tokenInRange (tok : List Byte) : Bool :=
  decide (-(180 * 2 ^ 46 + 1) * (tokenDen tok : ℤ) ≤ tokenNum tok * 2 ^ 46)
    && decide (tokenNum tok * 2 ^ 46 ≤ (180 * 2 ^ 46 + 1) * (tokenDen tok : ℤ))

/-- The largest exact decimal value whose nearest IEEE-754 double is at
most `180.0`: half an ulp beyond 180 (see `tokenInRange`). -/
def gpsBound : ℚ := 180 + 1 / 2 ^ 46

/-- The `gps_info_present` computation of `extract_extra_metadata`: some
match parses into `[-180, 180]`.  (`bool(gps_coords)` on the filtered list
is nonemptiness, i.e. `any`.) -/
def extract_gps (data : List Byte) : Bool :=
  (gpsFindall data).any tokenInRange

/-- `extract_extra_metadata`: timestamp, orientation window, GPS flag. -/
def extract_extra_metadata (data : List Byte) :
    Option (List Byte) × Option (List Byte) × Bool :=
  (findTimestamp data, findOrientation data, extract_gps data)

/-! ## Pipeline (`load_image_metadata`, `analyze_photo`) -/

/-- `load_image_metadata` without the decoded-text component: latin-1
decoding is the identity on bytes, so the `ascii_meta` value it returns is
just the buffer itself (and the `if not ascii_meta:` re-decode in
`analyze_photo` recomputes the same thing; both are elided). -/
def load_image_metadata (data : List Byte) : String × Option Nat × Option Nat :=
  let file_type := _sniff_file_type data
  let wh :=
    if file_type = "PNG" then _png_dimensions data
    else if file_type = "BMP" then _bmp_dimensions data
    else if file_type = "WEBP" then _webp_dimensions data
    else if file_type = "TIFF" then _tiff_dimensions data
    else if file_type = "JPEG" then jpeg_resolution data
    else (none, none)
  (file_type, wh)

/-- The dimensions `analyze_photo` ends up using: the sniffed format's
extractor output, replaced wholesale by `jpeg_resolution(data)` when either
axis is falsy (`if not width or not height: width, height =
jpeg_resolution(data)`). -/
def analyze_dims (data : List Byte) : Option Nat × Option Nat :=
  let m := load_image_metadata data
  if ¬truthyNat m.2.1 ∨ ¬truthyNat m.2.2 then jpeg_resolution data else m.2

/-- The score accumulation of `analyze_photo`, in source order: `score = 0`,
then `+1` for EXIF, `+1` for make-or-model, `+1` for a positive quantization
table count, `+1` for a passing plausibility check, `-1` for an editing tag,
`-1` for the screenshot flag. -/
def verdict_score_steps (exif mm qpos ok ed sc : Bool) : ℤ :=
  let score : ℤ := 0
  let score := if exif then score + 1 else score
  let score := if mm then score + 1 else score
  let score := if qpos then score + 1 else score
  let score := if ok then score + 1 else score
  let score := if ed then score - 1 else score
  let score := if sc then score - 1 else score
  score

/-- The reason list of `analyze_photo`, appended in source order.  `jpeg` is
`file_type.upper() == "JPEG"` (the quantization reason is emitted only for
JPEG buffers); `msg` is the plausibility failure reason; `ed` the editing
tag; `gps` the GPS flag. -/
def verdict_reasons (exif mm jpeg qpos ok : Bool) (msg : Option String)
    (ed : Option String) (sc gps : Bool) : List String :=
  let reasons : List String := []
  let reasons := if exif then reasons else reasons ++ ["Missing EXIF metadata"]
  let reasons := if mm then reasons
    else reasons ++ ["No recognizable make/model detected"]
  let reasons := if qpos then reasons
    else if jpeg then reasons ++ ["No JPEG quantization tables found"] else reasons
  let reasons := if ok then reasons
    else match msg with
      | some m => reasons ++ [m]
      | none => reasons
  let reasons := match ed with
    | some tag => reasons ++ ["Editing software tag detected: " ++ tag]
    | none => reasons
  let reasons := if sc then
      reasons ++ ["Pattern matches screenshot (no EXIF, common screen aspect ratio)"]
    else reasons
  let reasons := if gps then
      reasons ++ ["GPS coordinates embedded (redacted in this report)"]
    else reasons
  reasons

/-- The verdict-label cascade at the end of `analyze_photo` (first match
wins): screenshot, curated camera make, make-or-model, `score >= 4`,
`score == 3`, insufficient evidence. -/
def verdict_label (screenshot : Bool) (make model : Option String)
    (score : ℤ) : String :=
  if screenshot then "Likely screenshot"
  else if optMem make CAMERA_MAKES then
    "Likely standalone camera capture (" ++ make.getD "" ++ ")"
  else if truthyStr make || truthyStr model then
    pyStrip ("Captured with "
      ++ (if truthyStr make then make.getD "" else "unknown make") ++ " "
      ++ (if truthyStr model then model.getD "" else ""))
  else if 4 ≤ score then "Likely captured with a real-world camera"
  else if score = 3 then "Possibly captured with a real-world camera"
  else "Insufficient evidence for camera capture"

/-- The analysis record (`PhotoVerdict` without the caller-supplied path
field, which is I/O glue outside the core).  `timestamp` and `orientation`
are windows of decoded text, i.e. byte lists. -/
structure PhotoVerdict where
  verdict : String
  score : ℤ
  file_type : String
  make : Option String
  model : Option String
  resolution : Option String
  timestamp : Option (List Byte)
  orientation : Option (List Byte)
  gps_info_present : Bool
  screenshot_detected : Bool
  reasons : List String

/-- `analyze_photo` on an in-memory buffer (the file read is caller I/O).
`make`/`model` are catalog labels or `None`, never the empty string, so
their Python truthiness in `if make or model:` is `isSome`. -/
def analyze_photo (data : List Byte) : PhotoVerdict :=
  let m := load_image_metadata data
  let file_type := m.1
  let exif_present := has_exif_from_text data || substrIn "Exif" (data.take 4096)
  let mm := extract_make_model data
  let make := mm.1
  let model := mm.2
  let jpeg := file_type.toUpper = "JPEG"
  let qtables := if jpeg then jpeg_quant_tables data else 0
  let wh := analyze_dims data
  let sr := size_resolution_check data.length wh.1 wh.2
  let edit_tag := detect_editing_tags data
  let screenshot := detect_screenshot exif_present make model wh.1 wh.2
  let em := extract_extra_metadata data
  let score := verdict_score_steps exif_present (make.isSome || model.isSome)
    (decide (0 < qtables)) sr.1 edit_tag.isSome screenshot
  let reasons := verdict_reasons exif_present (make.isSome || model.isSome)
    jpeg (decide (0 < qtables)) sr.1 sr.2 edit_tag screenshot em.2.2
  let verdict := verdict_label screenshot make model score
  let resolution :=
    if truthyNat wh.1 && truthyNat wh.2 then
      some (toString (wh.1.getD 0) ++ "x" ++ toString (wh.2.getD 0))
    else none
  { verdict := verdict
    score := score
    file_type := file_type
    make := make
    model := model
    resolution := resolution
    timestamp := em.1
    orientation := em.2.1
    gps_info_present := em.2.2
    screenshot_detected := screenshot
    reasons := reasons }

/-! ## Theorems -/

/-- A JPEG buffer (`FF D8` signature) whose `FF DB` quantization-table marker
at offset 2 declares a 16-bit segment length of 0. -/
def c1data : List Byte := [0xFF, 0xD8, 0xFF, 0xDB, 0x00, 0x00]

/-- C1: the claim that every loop iteration of the quantization-table scanner
advances the cursor by at least one byte — and in particular advances by
exactly one byte on a zero declared length — fails on the code: at cursor 2
of `c1data` the loop guard holds, the marker matches, the declared length is
read as 0 and the body sets `i += 0`, so the cursor stays at 2.  The loop
therefore revisits the same state forever — for every fuel the fueled
unfolding only ever consumes fuel, incrementing the table counter at the
same cursor — so `jpeg_quant_tables`, and with it `analyze`, never
terminates on this buffer. -/
theorem c1_jqt_zero_length_stalls :
    2 < c1data.length - 1 ∧ jqt_next c1data 2 = (2, true) ∧
    ∀ fuel tables, jqt_loop fuel c1data 2 tables = tables + fuel := by
  refine ⟨by decide, by decide, ?_⟩
  intro fuel
  induction fuel with
  | zero => intro tables; rfl
  | succ n ih =>
    intro tables
    have hstep : jqt_loop (n + 1) c1data 2 tables = jqt_loop n c1data 2 (tables + 1) := by
      have hnext : jqt_next c1data 2 = (2, true) := by decide
      have hguard : 2 < c1data.length - 1 := by decide
      simp only [jqt_loop, hnext, if_pos hguard, if_pos]
    rw [hstep, ih]
    omega

/-- A well-formed little-endian TIFF buffer: "II*\0", IFD at offset 8 with 2
entries, tag 256 (width) = 800 in the first entry and tag 257 (height) = 600
in the second. -/
def c2tiff : List Byte :=
  [73, 73, 42, 0, 8, 0, 0, 0, 2, 0,
   0, 1, 3, 0, 1, 0, 0, 0, 32, 3, 0, 0,
   1, 1, 3, 0, 1, 0, 0, 0, 88, 2, 0, 0]

/-- C2: the claim that the TIFF extractor iterates the directory entries
until both tag 256 and tag 257 are found fails on the code: the loop's
`if "width" in locals() and "height" in locals():` guard is always true, so
the function returns after its first entry.  On `c2tiff` — whose second
12-byte entry carries tag 257 with value 600, as the second and third
conjuncts verify — it returns `(800, None)` instead of the claimed
`(800, 600)`. -/
theorem c2_tiff_returns_after_first_entry :
    _tiff_dimensions c2tiff = (some 800, none)
    ∧ readU16 true c2tiff 22 = 257 ∧ readU32 true c2tiff 30 = 600 := by
  decide

/-- Claim-side comparator for C4, written from the spec's cascade: size is
checked before resolution, the first failing check short-circuits, and the
resolution rules apply only when both dimensions are present. -/
def size_resolution_check_spec (n : Nat) (width height : Option Nat) :
    Bool × Option String :=
  if 10 * n < 1048576 then
    (false, some "File too small to be a natural camera photo")
  else if n > 20971520 then
    (false, some "Unusually large for a typical JPEG capture")
  else
    match width, height with
    | some w, some h =>
      if w < 500 ∨ h < 500 then (false, some "Resolution unusually low")
      else if w > 12000 ∨ h > 12000 then
        (false, some "Resolution unusually high (possible synthetic or scan)")
      else (true, none)
    | _, _ => (true, none)

/-- C4: the plausibility check equals the claimed short-circuiting cascade —
for dimensions drawn from the data model (absent, or present and positive) —
and every 50-byte buffer fails with the too-small reason regardless of the
dimensions. -/
theorem c4_size_resolution_cascade (n : Nat) (width height : Option Nat)
    (hw : ∀ x, width = some x → 0 < x) (hh : ∀ x, height = some x → 0 < x) :
    size_resolution_check n width height = size_resolution_check_spec n width height
    ∧ (n = 50 → size_resolution_check n width height
        = (false, some "File too small to be a natural camera photo")) := by
  constructor
  · cases width with
    | none => cases height <;> simp [size_resolution_check, size_resolution_check_spec, truthyNat]
    | some w =>
      cases height with
      | none => simp [size_resolution_check, size_resolution_check_spec, truthyNat]
      | some h =>
        have hw' : 0 < w := hw w rfl
        have hh' : 0 < h := hh h rfl
        simp only [size_resolution_check, size_resolution_check_spec, truthyNat,
          Option.getD_some]
        have hwne : (w != 0) = true := by simp [bne_iff_ne]; omega
        have hhne : (h != 0) = true := by simp [bne_iff_ne]; omega
        rw [hwne, hhne]
        simp
  · intro hn
    subst hn
    simp [size_resolution_check]

/-- C4 witness: a 50-byte buffer with plausible dimensions still fails with
the too-small reason. -/
theorem c4_witness :
    size_resolution_check 50 (some 1920) (some 1080)
      = (false, some "File too small to be a natural camera photo") :=
  (c4_size_resolution_cascade 50 (some 1920) (some 1080)
    (by intro x hx; injection hx with hx'; omega)
    (by intro x hx; injection hx with hx'; omega)).2 rfl

/-- The six score contributions keep the total within `[-2, 4]`. -/
theorem verdict_score_steps_bounds :
    ∀ e mm q ok ed sc, -2 ≤ verdict_score_steps e mm q ok ed sc
      ∧ verdict_score_steps e mm q ok ed sc ≤ 4 := by decide

/-- C9: for every input buffer the score of the returned verdict lies
between -2 and 4 inclusive: it accumulates from 0 through the four +1
contributions (EXIF, make/model, quantization tables, plausibility) and the
two -1 contributions (editing tag, screenshot), each applied at most once. -/
theorem c9_score_bounds (data : List Byte) :
    -2 ≤ (analyze_photo data).score ∧ (analyze_photo data).score ≤ 4 :=
  verdict_score_steps_bounds _ _ _ _ _ _

/-- C10: whenever the sniffed format's extractor leaves either axis absent
or zero, `analyze` replaces the dimensions with the result of the raw
`FF C0`/`FF C2` Start-Of-Frame scan `jpeg_resolution`. -/
theorem c10_jpeg_fallback (data : List Byte)
    (h : ¬truthyNat (load_image_metadata data).2.1 = true
       ∨ ¬truthyNat (load_image_metadata data).2.2 = true) :
    analyze_dims data = jpeg_resolution data := by
  simp only [analyze_dims]
  rw [if_pos h]

/-- A 16-byte buffer sniffed as BMP (too short for the BMP header fields)
that contains an `FF C0` Start-Of-Frame pattern encoding 800x600. -/
def bmBuf : List Byte :=
  [0x42, 0x4D, 0xFF, 0xC0, 0x00, 0x00, 0x00, 0x02, 0x58, 0x03, 0x20,
   0x00, 0x00, 0x00, 0x00, 0x00]

/-- C10 witness: a non-JPEG buffer acquires dimensions from the JPEG
Start-Of-Frame scan. -/
theorem c10_witness :
    analyze_dims bmBuf = (some 800, some 600) ∧ _sniff_file_type bmBuf = "BMP" :=
  ⟨(c10_jpeg_fallback bmBuf (by decide)).trans (by decide), by decide⟩

/-- C3: the verdict label is a first-match cascade; whenever the screenshot
flag is false, the make is not in the curated standalone-camera subset, and
make or model is present, the label is the "Captured with ..." form and is
independent of the score — so a score change (such as the -1 from an editing
tag like "Lightroom") leaves the label unchanged. -/
theorem c3_verdict_label_cascade (make model : Option String) (s s' : ℤ)
    (h1 : optMem make CAMERA_MAKES = false)
    (h2 : (truthyStr make || truthyStr model) = true) :
    verdict_label false make model s
      = pyStrip ("Captured with "
        ++ (if truthyStr make then make.getD "" else "unknown make") ++ " "
        ++ (if truthyStr model then model.getD "" else ""))
    ∧ verdict_label false make model s = verdict_label false make model s' := by
  unfold verdict_label
  simp [h1, h2]

/-- C3 witness: with make "Apple" and model "iPhone" the label is
"Captured with Apple iPhone" at score 4 and is unchanged at score 3. -/
theorem c3_witness :
    verdict_label false (some "Apple") (some "iPhone") 4 = "Captured with Apple iPhone"
    ∧ verdict_label false (some "Apple") (some "iPhone") 4
      = verdict_label false (some "Apple") (some "iPhone") 3 :=
  ⟨(c3_verdict_label_cascade (some "Apple") (some "iPhone") 4 3
      (by decide) (by decide)).1.trans (by decide),
   (c3_verdict_label_cascade (some "Apple") (some "iPhone") 4 3
      (by decide) (by decide)).2⟩

/-- A minimal 25-byte WEBP buffer whose `VP8L` chunk packs `w` and `h` into
bytes 21–24 exactly as the documented bitstream contract requires:
`b0 = (w-1) & 0xFF`, `b1 = (w-1) >> 8 | ((h-1) & 3) << 6`,
`b2 = ((h-1) >> 2) & 0xFF`, `b3 = (h-1) >> 10` (each written with `% 256`
to stay a byte for arbitrary inputs; the theorem's 14-bit bounds make the
reductions vacuous). -/
def mkVP8L (w h : Nat) : List Byte :=
  [0x52, 0x49, 0x46, 0x46, 0, 0, 0, 0, 0x57, 0x45, 0x42, 0x50,
   0x56, 0x50, 0x38, 0x4C, 0, 0, 0, 0, 0,
   ⟨(w - 1) % 256, by omega⟩,
   ⟨((w - 1) / 256 + ((h - 1) % 4) * 64) % 256, by omega⟩,
   ⟨((h - 1) / 4) % 256, by omega⟩,
   ⟨((h - 1) / 1024) % 256, by omega⟩]

/-- C7: WEBP VP8L extraction inverts the documented 14-bit packing — for
every width and height in `[1, 2^14]`, the buffer whose bytes 21–24 encode
them per the bitstream contract extracts to exactly that pair. -/
theorem c7_vp8l_roundtrip (w h : Nat) (hw1 : 1 ≤ w) (hw2 : w ≤ 16384)
    (hh1 : 1 ≤ h) (hh2 : h ≤ 16384) :
    _webp_dimensions (mkVP8L w h) = (some w, some h) := by
  have e : _webp_dimensions (mkVP8L w h)
      = (some (1 + (((((w - 1) / 256 + ((h - 1) % 4) * 64) % 256) % 64) * 256
            + (w - 1) % 256)),
         some (1 + (((((h - 1) / 1024) % 256) % 16) * 1024
            + (((h - 1) / 4) % 256) * 4
            + ((((w - 1) / 256 + ((h - 1) % 4) * 64) % 256) / 64)))) := rfl
  rw [e]
  simp only [Prod.mk.injEq, Option.some.injEq]
  omega

/-- C7 witness: the synthetic VP8L chunk encoding 400x300 extracts to
(400, 300). -/
theorem c7_witness : _webp_dimensions (mkVP8L 400 300) = (some 400, some 300) :=
  c7_vp8l_roundtrip 400 300 (by decide) (by decide) (by decide) (by decide)

/-- Claim-side pattern for C8: a byte sequence that is exactly an
optionally-signed decimal number with 1–3 integer digits and a nonempty
fractional part (the regex `[-+]?\d{1,3}\.\d+` as a whole-token matcher;
written from the claim's words to state what the claim asserts about
substrings). -/
def gpsTokenMatches (tok : List Byte) : Bool :=
  let rest := if byteAt tok 0 = 43 ∨ byteAt tok 0 = 45 then tok.drop 1 else tok
  let intPart := rest.takeWhile (fun b => isDig b.val)
  let rest2 := rest.drop intPart.length
  decide (1 ≤ intPart.length) && decide (intPart.length ≤ 3)
    && rest2.take 1 == [(46 : Byte)]
    && decide (1 ≤ (rest2.drop 1).length)
    && (rest2.drop 1).all (fun b => isDig b.val)

/-- The decoded text "999.5". -/
def d999 : List Byte := strBytes "999.5"

/-- The decoded text "99.5", a substring of `d999`. -/
def tok99 : List Byte := strBytes "99.5"

/-- The integer range test coincides with comparing the token's exact
rational value against `±(180 + 2^-46)`, the exact-value form of the
program's double comparison against `±180.0`. -/
theorem tokenInRange_iff (tok : List Byte) :
    tokenInRange tok = true ↔ (-gpsBound ≤ tokenVal tok ∧ tokenVal tok ≤ gpsBound) := by
  have hd : (0 : ℚ) < (tokenDen tok : ℚ) := by
    have h10 : 0 < tokenDen tok := Nat.pos_pow_of_pos _ (by omega)
    exact_mod_cast h10
  simp only [tokenInRange, Bool.and_eq_true, decide_eq_true_eq]
  rw [tokenVal, le_div_iff₀ hd, div_le_iff₀ hd, gpsBound]
  constructor
  · rintro ⟨h1, h2⟩
    have h1q : ((-(180 * 2 ^ 46 + 1) * (tokenDen tok : ℤ) : ℤ) : ℚ)
        ≤ ((tokenNum tok * 2 ^ 46 : ℤ) : ℚ) := by exact_mod_cast h1
    have h2q : ((tokenNum tok * 2 ^ 46 : ℤ) : ℚ)
        ≤ ((180 * 2 ^ 46 + 1) * (tokenDen tok : ℤ) : ℚ) := by exact_mod_cast h2
    push_cast at h1q h2q
    constructor <;> linarith
  · rintro ⟨h1, h2⟩
    constructor
    · have h1q : -(180 * 2 ^ 46 + 1) * ((tokenDen tok : ℤ) : ℚ)
          ≤ ((tokenNum tok : ℤ) : ℚ) * 2 ^ 46 := by push_cast; linarith
      exact_mod_cast h1q
    · have h2q : ((tokenNum tok : ℤ) : ℚ) * 2 ^ 46
          ≤ (180 * 2 ^ 46 + 1) * ((tokenDen tok : ℤ) : ℚ) := by push_cast; linarith
      exact_mod_cast h2q

/-- C8 counterexample: the buffer "999.5" contains the substring "99.5",
which matches the optionally-signed 1–3-digit decimal pattern and parses to
99.5 ∈ [-180, 180], yet `gps_present` is false — the regex scan finds only
the non-overlapping greedy match "999.5", whose value 999.5 is out of range,
so the claim's "exactly when the text contains some matching substring with
value in [-180, 180]" is false as stated. -/
theorem c8_gps_substring_counterexample :
    extract_gps d999 = false
    ∧ (d999.drop 1).take 4 = tok99
    ∧ gpsTokenMatches tok99 = true
    ∧ -180 ≤ tokenVal tok99 ∧ tokenVal tok99 ≤ 180 := by
  have hn : tokenNum tok99 = 995 := by decide
  have hd : tokenDen tok99 = 10 := by decide
  refine ⟨by decide, by decide, by decide, ?_, ?_⟩
  · rw [tokenVal, hn, hd]; norm_num
  · rw [tokenVal, hn, hd]; norm_num

/-- C8 amended: `gps_present` is true exactly when the left-to-right,
non-overlapping, greedy regex scan of the decoded text (Python
`re.findall`) yields at least one match whose value parsed as an IEEE-754
double (`float(match)`) lies in [-180, 180] — equivalently, by the
correct-rounding argument at `tokenInRange`, whose exact decimal value lies
in `[-(180 + 2^-46), 180 + 2^-46]`; substrings inside or overlapping the
scanned matches are not considered. -/
theorem c8_gps_scan_amended (data : List Byte) :
    extract_gps data = true
      ↔ ∃ tok ∈ gpsFindall data, -gpsBound ≤ tokenVal tok ∧ tokenVal tok ≤ gpsBound := by
  rw [extract_gps, List.any_eq_true]
  constructor
  · rintro ⟨tok, hm, hr⟩
    exact ⟨tok, hm, (tokenInRange_iff tok).1 hr⟩
  · rintro ⟨tok, hm, hr⟩
    exact ⟨tok, hm, (tokenInRange_iff tok).2 hr⟩

/-- C8 witness: a buffer whose single scan match parses into range sets the
flag, including the boundary literal "180.00000000000001", which parses to
the double 180.0 exactly as the program's `float` does. -/
theorem c8_witness :
    extract_gps (strBytes "12.5") = true
    ∧ extract_gps (strBytes "180.00000000000001") = true :=
  ⟨(c8_gps_scan_amended (strBytes "12.5")).mpr
    ⟨strBytes "12.5", by decide, (tokenInRange_iff (strBytes "12.5")).1 (by decide)⟩,
   (c8_gps_scan_amended (strBytes "180.00000000000001")).mpr
    ⟨strBytes "180.00000000000001", by decide,
     (tokenInRange_iff (strBytes "180.00000000000001")).1 (by decide)⟩⟩

/-- A buffer starting with a pattern also starts with the pattern's head. -/
theorem startswith_cons_head (data : List Byte) (a : Byte) (rest : List Byte)
    (h : startswith data (a :: rest) = true) : data.take 1 = [a] := by
  have h' : data.take (a :: rest).length = a :: rest := by
    simpa [startswith] using h
  have h2 := congrArg (List.take 1) h'
  simp only [List.take_take] at h2
  have hmin : min 1 (a :: rest).length = 1 := by
    simp [Nat.min_def]
  rw [hmin] at h2
  simpa using h2

/-- Magic prefixes with different first bytes are mutually exclusive. -/
theorem startswith_excl (data : List Byte) (a : Byte) (rest : List Byte)
    (a' : Byte) (rest' : List Byte) (hne : a ≠ a')
    (h : startswith data (a :: rest) = true) :
    startswith data (a' :: rest') = false := by
  rcases Bool.eq_false_or_eq_true (startswith data (a' :: rest')) with hb | hb
  · have e1 := startswith_cons_head data a rest h
    have e2 := startswith_cons_head data a' rest' hb
    rw [e1] at e2
    injection e2 with e3
    exact absurd e3 hne
  · exact hb

/-- A JPEG-signature buffer sniffs as JPEG. -/
theorem sniff_jpeg (data : List Byte)
    (h : startswith data [0xFF, 0xD8] = true) : _sniff_file_type data = "JPEG" := by
  unfold _sniff_file_type
  rw [if_pos h]

/-- A PNG-signature buffer sniffs as PNG. -/
theorem sniff_png (data : List Byte)
    (h : startswith data [0x89, 0x50, 0x4E, 0x47] = true) :
    _sniff_file_type data = "PNG" := by
  have hj : startswith data [0xFF, 0xD8] = false :=
    startswith_excl data 0x89 [0x50, 0x4E, 0x47] 0xFF [0xD8] (by decide) h
  unfold _sniff_file_type
  rw [if_neg (by simp [hj]), if_pos h]

/-- A TIFF-signature buffer (either endianness) sniffs as TIFF. -/
theorem sniff_tiff (data : List Byte)
    (h : startswith data [0x49, 0x49, 0x2A, 0x00] = true
       ∨ startswith data [0x4D, 0x4D, 0x00, 0x2A] = true) :
    _sniff_file_type data = "TIFF" := by
  rcases h with h | h
  · have hj : startswith data [0xFF, 0xD8] = false :=
      startswith_excl data 0x49 [0x49, 0x2A, 0x00] 0xFF [0xD8] (by decide) h
    have hp : startswith data [0x89, 0x50, 0x4E, 0x47] = false :=
      startswith_excl data 0x49 [0x49, 0x2A, 0x00] 0x89 [0x50, 0x4E, 0x47] (by decide) h
    unfold _sniff_file_type
    rw [if_neg (by simp [hj]), if_neg (by simp [hp]), if_pos (by simp [h])]
  · have hj : startswith data [0xFF, 0xD8] = false :=
      startswith_excl data 0x4D [0x4D, 0x00, 0x2A] 0xFF [0xD8] (by decide) h
    have hp : startswith data [0x89, 0x50, 0x4E, 0x47] = false :=
      startswith_excl data 0x4D [0x4D, 0x00, 0x2A] 0x89 [0x50, 0x4E, 0x47] (by decide) h
    unfold _sniff_file_type
    rw [if_neg (by simp [hj]), if_neg (by simp [hp]), if_pos (by simp [h])]

/-- The sniffer classifies WEBP exactly when the buffer starts with "RIFF"
and the 8-byte window at offsets 8..15 contains "WEBP" as a substring. -/
theorem sniff_webp_iff (data : List Byte) :
    _sniff_file_type data = "WEBP"
      ↔ (startswith data (strBytes "RIFF") = true
         ∧ containsSeq (strBytes "WEBP") ((data.drop 8).take 8) = true) := by
  constructor
  · intro h
    unfold _sniff_file_type at h
    by_cases h1 : startswith data [0xFF, 0xD8] = true
    · rw [if_pos h1] at h; exact absurd h (by decide)
    · rw [if_neg h1] at h
      by_cases h2 : startswith data [0x89, 0x50, 0x4E, 0x47] = true
      · rw [if_pos h2] at h; exact absurd h (by decide)
      · rw [if_neg h2] at h
        by_cases h3 : (startswith data [0x49, 0x49, 0x2A, 0x00]
            || startswith data [0x4D, 0x4D, 0x00, 0x2A]) = true
        · rw [if_pos h3] at h; exact absurd h (by decide)
        · rw [if_neg h3] at h
          by_cases h4 : (startswith data (strBytes "RIFF")
              && containsSeq (strBytes "WEBP") ((data.drop 8).take 8)) = true
          · simpa [Bool.and_eq_true] using h4
          · rw [if_neg h4] at h
            by_cases h5 : startswith data (strBytes "BM") = true
            · rw [if_pos h5] at h; exact absurd h (by decide)
            · rw [if_neg h5] at h; exact absurd h (by decide)
  · rintro ⟨hr, hw⟩
    have hR : strBytes "RIFF" = 0x52 :: [0x49, 0x46, 0x46] := by decide
    rw [hR] at hr
    have hj : startswith data [0xFF, 0xD8] = false :=
      startswith_excl data 0x52 [0x49, 0x46, 0x46] 0xFF [0xD8] (by decide) hr
    have hp : startswith data [0x89, 0x50, 0x4E, 0x47] = false :=
      startswith_excl data 0x52 [0x49, 0x46, 0x46] 0x89 [0x50, 0x4E, 0x47] (by decide) hr
    have ht1 : startswith data [0x49, 0x49, 0x2A, 0x00] = false :=
      startswith_excl data 0x52 [0x49, 0x46, 0x46] 0x49 [0x49, 0x2A, 0x00] (by decide) hr
    have ht2 : startswith data [0x4D, 0x4D, 0x00, 0x2A] = false :=
      startswith_excl data 0x52 [0x49, 0x46, 0x46] 0x4D [0x4D, 0x00, 0x2A] (by decide) hr
    unfold _sniff_file_type
    rw [if_neg (by simp [hj]), if_neg (by simp [hp]), if_neg (by simp [ht1, ht2]),
      if_pos (by rw [hR]; simp [hr, hw])]

/-- A "BM"-signature buffer sniffs as BMP. -/
theorem sniff_bmp (data : List Byte)
    (h : startswith data (strBytes "BM") = true) : _sniff_file_type data = "BMP" := by
  have hB : strBytes "BM" = 0x42 :: [0x4D] := by decide
  rw [hB] at h
  have hj : startswith data [0xFF, 0xD8] = false :=
    startswith_excl data 0x42 [0x4D] 0xFF [0xD8] (by decide) h
  have hp : startswith data [0x89, 0x50, 0x4E, 0x47] = false :=
    startswith_excl data 0x42 [0x4D] 0x89 [0x50, 0x4E, 0x47] (by decide) h
  have ht1 : startswith data [0x49, 0x49, 0x2A, 0x00] = false :=
    startswith_excl data 0x42 [0x4D] 0x49 [0x49, 0x2A, 0x00] (by decide) h
  have ht2 : startswith data [0x4D, 0x4D, 0x00, 0x2A] = false :=
    startswith_excl data 0x42 [0x4D] 0x4D [0x4D, 0x00, 0x2A] (by decide) h
  have hriff : startswith data (strBytes "RIFF") = false := by
    have hR : strBytes "RIFF" = 0x52 :: [0x49, 0x46, 0x46] := by decide
    rw [hR]
    exact startswith_excl data 0x42 [0x4D] 0x52 [0x49, 0x46, 0x46] (by decide) h
  unfold _sniff_file_type
  rw [if_neg (by simp [hj]), if_neg (by simp [hp]), if_neg (by simp [ht1, ht2]),
    if_neg (by simp [hriff]), if_pos (by rw [hB]; simp [h])]

/-- A buffer matching none of the magic rules sniffs as Unknown. -/
theorem sniff_unknown (data : List Byte)
    (h : startswith data [0xFF, 0xD8] = false
       ∧ startswith data [0x89, 0x50, 0x4E, 0x47] = false
       ∧ startswith data [0x49, 0x49, 0x2A, 0x00] = false
       ∧ startswith data [0x4D, 0x4D, 0x00, 0x2A] = false
       ∧ (startswith data (strBytes "RIFF") = false
          ∨ containsSeq (strBytes "WEBP") ((data.drop 8).take 8) = false)
       ∧ startswith data (strBytes "BM") = false) :
    _sniff_file_type data = "Unknown" := by
  obtain ⟨hj, hp, ht1, ht2, hw, hb⟩ := h
  unfold _sniff_file_type
  rw [if_neg (by simp [hj]), if_neg (by simp [hp]), if_neg (by simp [ht1, ht2]),
    if_neg (by rcases hw with hw | hw <;> simp [hw]), if_neg (by simp [hb])]

/-- C6 amended: the sniffer is total and classifies by the fixed magic
prefixes in priority order, except that the WEBP rule is: "RIFF" prefix and
"WEBP" occurring anywhere in the 8-byte window at offsets 8..15 (not
necessarily exactly at offset 8). -/
theorem c6_sniffer_characterization (data : List Byte) :
    (_sniff_file_type data = "WEBP"
      ↔ (startswith data (strBytes "RIFF") = true
         ∧ containsSeq (strBytes "WEBP") ((data.drop 8).take 8) = true))
    ∧ (startswith data [0xFF, 0xD8] = true → _sniff_file_type data = "JPEG")
    ∧ (startswith data [0x89, 0x50, 0x4E, 0x47] = true → _sniff_file_type data = "PNG")
    ∧ ((startswith data [0x49, 0x49, 0x2A, 0x00] = true
        ∨ startswith data [0x4D, 0x4D, 0x00, 0x2A] = true)
       → _sniff_file_type data = "TIFF")
    ∧ (startswith data (strBytes "BM") = true → _sniff_file_type data = "BMP")
    ∧ ((startswith data [0xFF, 0xD8] = false
        ∧ startswith data [0x89, 0x50, 0x4E, 0x47] = false
        ∧ startswith data [0x49, 0x49, 0x2A, 0x00] = false
        ∧ startswith data [0x4D, 0x4D, 0x00, 0x2A] = false
        ∧ (startswith data (strBytes "RIFF") = false
           ∨ containsSeq (strBytes "WEBP") ((data.drop 8).take 8) = false)
        ∧ startswith data (strBytes "BM") = false)
       → _sniff_file_type data = "Unknown") :=
  ⟨sniff_webp_iff data, sniff_jpeg data, sniff_png data, sniff_tiff data,
   sniff_bmp data, sniff_unknown data⟩

/-- "RIFF", four junk bytes, then "WEBP" at offset 9 (not 8). -/
def c6cex : List Byte :=
  [0x52, 0x49, 0x46, 0x46, 0, 0, 0, 0, 0x7A, 0x57, 0x45, 0x42, 0x50, 0x61, 0x62, 0x63]

/-- C6 counterexample: a buffer whose four bytes at offset 8 are not "WEBP"
(the chunk tag sits at offset 9) is nevertheless classified WEBP, because
the code searches for "WEBP" anywhere in `data[8:16]`; the claim's "exactly
when ... the four bytes at offset 8 are WEBP" is false as stated. -/
theorem c6_webp_window_counterexample :
    _sniff_file_type c6cex = "WEBP" ∧ (c6cex.drop 8).take 4 ≠ strBytes "WEBP" := by
  decide

/-- A canonical WEBP header: "RIFF", size bytes, "WEBP" exactly at offset 8. -/
def c6webpEx : List Byte :=
  [0x52, 0x49, 0x46, 0x46, 1, 2, 3, 4, 0x57, 0x45, 0x42, 0x50, 0x56, 0x50, 0x38, 0x4C]

/-- C6 witness: the characterization applied to a canonical WEBP buffer and
to a JPEG-signature buffer. -/
theorem c6_witness :
    _sniff_file_type c6webpEx = "WEBP" ∧ _sniff_file_type [0xFF, 0xD8, 0x00] = "JPEG" :=
  ⟨(c6_sniffer_characterization c6webpEx).1.mpr ⟨by decide, by decide⟩,
   (c6_sniffer_characterization [0xFF, 0xD8, 0x00]).2.1 (by decide)⟩

end PhotoPuller
